import Mathlib

/-!
Shallow embedding of `feedback_api.py` (spark-privacy/spark-feedback-api).

The repository is a single FastAPI module exposing `POST /feedback`.  The
embedding below translates, from the source:

* the string helpers `_clean` and `_valid_email` (lists of characters stand
  for Python strings; Python's `str.strip`, `re.sub(r"\r\n", "\n", ...)` and
  `re.sub(r"[ \t]\x7b2,\x7d", " ", ...)` become explicit recursions);
* the in-memory per-IP rate limiter `_rate_limit` (the `_ip_hits` dict is a
  total function from IP strings to timestamp lists, timestamps are rationals
  standing for the float seconds of `datetime.timestamp()`);
* the pydantic model `FeedbackPayload` and its `Field` length constraints
  (FastAPI rejects a body violating them with a 422 validation error before
  the handler runs);
* the `feedback` handler itself, as a function from configuration, rate
  state, request, current time, formatted timestamp and gateway outcome to a
  response together with the final rate state and the list of outbound send
  attempts (the call to `https://api.resend.com/emails` is the single
  possible element of that list; its outcome is supplied as an oracle).
-/

namespace SparkFeedback

/-- Whitespace characters of Python's `str.strip` / regex `\s` (ASCII range). -/
def isPySpace (c : Char) : Bool :=
  c = ' ' || c = '\t' || c = '\n' || c = '\r' || c = '\x0b' || c = '\x0c'

/-- Leading-whitespace removal, as in Python `str.lstrip()`. -/
def stripLeft (l : List Char) : List Char := l.dropWhile isPySpace

/-- Trailing-whitespace removal, as in Python `str.rstrip()`: a character is
dropped exactly when it is whitespace and everything after it is dropped. -/
def stripRight : List Char → List Char
  | [] => []
  | c :: rest =>
    if stripRight rest = [] ∧ isPySpace c then [] else c :: stripRight rest

/-- Both-ends trim, as in Python `str.strip()`. -/
def pyStrip (l : List Char) : List Char := stripRight (stripLeft l)

/-- `str.strip()` on Lean strings. -/
def pyStripS (s : String) : String := String.mk (pyStrip s.toList)

/-- One left-to-right pass replacing each non-overlapping `"\r\n"` pair by
`"\n"`; models `re.sub(r"\r\n", "\n", s)` in `_clean`. -/
def replaceCRLF : List Char → List Char
  | [] => []
  | [c] => [c]
  | c :: d :: rest =>
    if c = '\r' && d = '\n' then '\n' :: replaceCRLF rest
    else c :: replaceCRLF (d :: rest)

/-- Space or tab, the character class `[ \t]`. -/
def isST (c : Char) : Bool := c = ' ' || c = '\t'

/-- Fuel-indexed worker for `collapseST`; the fuel (always at least the list
length at every call, so the `0, l` fallback is never taken) only makes the
recursion structural. -/
def collapseSTGo : Nat → List Char → List Char
  | _, [] => []
  | _, [c] => [c]
  | 0, l => l
  | fuel + 1, c :: d :: rest =>
    if isST c && isST d then ' ' :: collapseSTGo fuel (rest.dropWhile isST)
    else c :: collapseSTGo fuel (d :: rest)

/-- Replace each maximal run of two or more spaces/tabs by a single space;
models `re.sub(r"[ \t]\x7b2,\x7d", " ", s)` in `_clean`: at a run of at
least two spaces/tabs, emit one space and resume after the run. -/
def collapseST (l : List Char) : List Char := collapseSTGo l.length l

/-- Input predicate: every carriage return is immediately followed by a line
feed, i.e. carriage returns occur only as the first half of a Windows
`"\r\n"` line break. -/
def crOnlyInCRLF : List Char → Bool
  | [] => true
  | [c] => !(c = '\r')
  | c :: d :: rest =>
    if c = '\r' then (d = '\n') && crOnlyInCRLF rest
    else crOnlyInCRLF (d :: rest)

/-- The sanitizer `_clean(s, max_len)` on character lists: strip, normalize
CRLF, collapse space/tab runs, truncate to `max_len` with `rstrip` and an
appended ellipsis character. -/
def cleanL (l : List Char) (maxLen : Nat) : List Char :=
  let s3 := collapseST (replaceCRLF (pyStrip l))
  if maxLen < s3.length then stripRight (s3.take maxLen) ++ ['…'] else s3

/-- The sanitizer `_clean(s, max_len)` on strings. -/
def clean (s : String) (maxLen : Nat) : String := String.mk (cleanL s.toList maxLen)

/-- Character admissible in the local part and domain of the email regex:
the class `[^@\s]`. -/
def isEmailChar (c : Char) : Bool := !(c = '@') && !(isPySpace c)

/-- Match of the regex `^[^@\s]+@[^@\s]+\.[^@\s]+$` against an (already
stripped) character list: a non-empty `@`-free, whitespace-free local part,
one `'@'`, and a remainder that is `@`-free, whitespace-free and contains a
dot with at least one character on each side of it. -/
def emailShape (l : List Char) : Bool :=
  let loc := l.takeWhile (fun c => !(c = '@'))
  let rest := l.dropWhile (fun c => !(c = '@'))
  let dom := rest.drop 1
  !(rest = []) && !(loc = []) && loc.all isEmailChar &&
    dom.all isEmailChar && ('.' ∈ (dom.drop 1).dropLast)

/-- The validator `_valid_email(email)`: strip, reject the empty string, then
match the regex `^[^@\s]+@[^@\s]+\.[^@\s]+$`. -/
def validEmail (s : String) : Bool :=
  let e := pyStrip s.toList
  !(e = []) && emailShape e

/-- The `_ip_hits` dictionary: per-IP recorded request timestamps (seconds).
An absent key is the empty list, matching `_ip_hits.get(ip, [])`. -/
def RateState : Type := String → List ℚ

/-- Initial `_ip_hits` state: the empty dict. -/
def emptyRate : RateState := fun _ => []

/-- The rate limiter `_rate_limit(ip)` at time `t` with configured limit
`limit` (`RATE_LIMIT_PER_IP_PER_MIN`).  Returns whether the call is accepted
(`False` models the raised 429 `HTTPException`) together with the state of
`_ip_hits` after the call. -/
def rateLimit (limit : Int) (st : RateState) (ip : String) (t : ℚ) :
    Bool × RateState :=
  if limit ≤ 0 then (true, st)
  else
    let bucket := (st ip).filter (fun x => t - x ≤ 60)
    if limit ≤ (bucket.length : Int) then (false, st)
    else (true, fun j => if j = ip then bucket ++ [t] else st j)

/-- Run a sequence of `(ip, time)` rate-limiter calls from a starting state,
collecting the accept/reject answers and the final `_ip_hits` state. -/
def runRate (limit : Int) (calls : List (String × ℚ)) : List Bool × RateState :=
  calls.foldl
    (fun acc call =>
      let r := rateLimit limit acc.2 call.1 call.2
      (acc.1 ++ [r.1], r.2))
    ([], emptyRate)

/-- Final `_ip_hits` state after a sequence of `(ip, time)` calls starting
from a given state. -/
def runRateStates (limit : Int) (st : RateState) (calls : List (String × ℚ)) :
    RateState :=
  calls.foldl (fun s call => (rateLimit limit s call.1 call.2).2) st

/-- The pydantic model `FeedbackPayload`.  `Optional[str]` fields are
`Option String` (`none` is JSON `null`); the defaults are the `Field`
defaults of the source. -/
structure FeedbackPayload where
  name : Option String := some ""
  email : Option String := some ""
  message : String
  app_name : Option String := some "Смысл слова и контекста"
  app_version : Option String := some ""
  build_number : Option String := some ""
  platform : Option String := some ""
  device : Option String := some ""
  os_version : Option String := some ""
  locale : Option String := some "ru"
  honey : Option String := some ""
deriving DecidableEq

/-- A `max_length` constraint on an `Optional[str]` field: `None` passes,
a string must not exceed the bound. -/
def optLenOk (o : Option String) (m : Nat) : Bool :=
  match o with
  | none => true
  | some s => s.length ≤ m

/-- The pydantic `Field` constraints of `FeedbackPayload`.  A request body
violating them is answered by FastAPI with a 422 validation error and never
reaches the `feedback` handler. -/
def payloadValid (p : FeedbackPayload) : Bool :=
  optLenOk p.name 60 && optLenOk p.email 120 &&
    (4 ≤ p.message.length && p.message.length ≤ 4000) &&
    optLenOk p.app_name 120 && optLenOk p.app_version 60 &&
    optLenOk p.build_number 60 && optLenOk p.platform 40 &&
    optLenOk p.device 140 && optLenOk p.os_version 80 &&
    optLenOk p.locale 16 && optLenOk p.honey 40

/-- The environment-derived configuration of the module (each value already
`.strip()`-ed, as in the source).  `subjectPrefixCfg` is `SUBJECT_PREFIX`,
`rateLimitPerMin` is `RATE_LIMIT_PER_IP_PER_MIN`. -/
structure Config where
  resendApiKey : String := ""
  toEmail : String := "founder@sparkheritage.online"
  fromEmail : String := "hello@sparkheritage.online"
  subjectPrefixCfg : String := "[Смысл слова] Feedback"
  sharedSecret : String := ""
  rateLimitPerMin : Int := 20

/-- An inbound `POST /feedback` request: the optional `X-Api-Key` header, the
client address (`none` when `request.client` is `None`), and the parsed JSON
body. -/
structure Request where
  apiKey : Option String := none
  clientHost : Option String := none
  body : FeedbackPayload

/-- The client IP used by the handler:
`(request.client.host if request.client else "unknown") or "unknown"`. -/
def ipOf (req : Request) : String :=
  match req.clientHost with
  | none => "unknown"
  | some h => if h = "" then "unknown" else h

/-- Python `x or default` for an optional string field: `None` and `""` both
fall back to the default. -/
def orDefault (o : Option String) (d : String) : String :=
  match o with
  | none => d
  | some s => if s = "" then d else s

/-- The JSON body of the outbound `POST https://api.resend.com/emails`
(`payload_resend` in the source).  `reply_to` is present exactly when the
source adds the key. -/
structure ResendRequest where
  fromAddr : String
  toAddr : List String
  subject : String
  text : String
  html : String
  reply_to : Option String
deriving DecidableEq

/-- The `meta_lines` list of the handler. -/
def metaLines (p : FeedbackPayload) (ip ts : String) : List String :=
  ["Time: " ++ ts,
   "App: " ++ (p.app_name.getD ""),
   "Version: " ++ (p.app_version.getD "") ++ " (" ++ (p.build_number.getD "") ++ ")",
   "Platform: " ++ (p.platform.getD ""),
   "Device: " ++ (p.device.getD ""),
   "OS: " ++ (p.os_version.getD ""),
   "Locale: " ++ (p.locale.getD ""),
   "IP: " ++ ip]

/-- The `from_block` list of the handler (built from the cleaned name and
email). -/
def fromBlock (name userEmail : String) : List String :=
  (if name = "" then [] else ["Name: " ++ name]) ++
    (if userEmail = "" then [] else ["Email: " ++ userEmail])

/-- The plain-text body `text_body` of the handler. -/
def textBody (fb : List String) (msg : String) (meta : List String) : String :=
  "Новая обратная связь из приложения\n" ++
    "================================\n\n" ++
    (if fb = [] then "" else String.intercalate "\n" fb ++ "\n\n") ++
    "Сообщение:\n" ++ msg ++ "\n\n---\n" ++
    String.intercalate "\n" meta ++ "\n"

/-- Substring before the first colon, `line.split(':')[0]`. -/
def beforeColon (s : String) : String :=
  String.mk (s.toList.takeWhile (fun c => !(c = ':')))

/-- Substring after the first colon, `line.split(':', 1)[1]` (empty when the
line has no colon; every `from_block` line contains one). -/
def afterColon (s : String) : String :=
  String.mk ((s.toList.dropWhile (fun c => !(c = ':'))).drop 1)

/-- One `from_block` row of the HTML body. -/
def htmlFromRow (line : String) : String :=
  "<div><b>" ++ beforeColon line ++ ":</b> " ++ pyStripS (afterColon line) ++ "</div>"

/-- The HTML body `html_body` of the handler (the f-string literal, with the
final `.strip()` applied to its ends). -/
def htmlBody (fb : List String) (msg : String) (meta : List String) : String :=
  "<div style=\"font-family: -apple-system, Segoe UI, Roboto, Arial; line-height:1.4;\">\n      <h2 style=\"margin:0 0 8px 0;\">Новая обратная связь из приложения</h2>\n      " ++
    (if fb = [] then "" else String.join (fb.map htmlFromRow)) ++
    "\n      <div style=\"margin-top:14px; padding:14px; border-radius:12px; background:#f6f7f9; white-space:pre-wrap;\">" ++
    msg ++
    "</div>\n      <div style=\"margin-top:14px; color:#555; font-size:13px;\">\n        <div style=\"margin-bottom:6px;\"><b>Meta</b></div>\n        " ++
    String.join (meta.map (fun m => "<div>" ++ m ++ "</div>")) ++
    "\n      </div>\n    </div>"

/-- Composition of the outbound request `payload_resend` from the validated
submission, the client IP, the formatted timestamp and the cleaned fields. -/
def composeResend (cfg : Config) (p : FeedbackPayload) (ip ts msg userEmail name : String) :
    ResendRequest :=
  let subject :=
    cfg.subjectPrefixCfg ++ " · " ++ orDefault p.platform "unknown" ++
      " · v" ++ orDefault p.app_version "-"
  let meta := metaLines p ip ts
  let fb := fromBlock name userEmail
  { fromAddr := cfg.fromEmail
    toAddr := [cfg.toEmail]
    subject := subject
    text := textBody fb msg meta
    html := htmlBody fb msg meta
    reply_to := if userEmail = "" then none else some userEmail }

/-- URL of the Delivery Gateway call in the source. -/
def resendUrl : String := "https://api.resend.com/emails"

/-- Timeout bound of the outbound call: `httpx.AsyncClient(timeout=15.0)`. -/
def resendTimeoutSeconds : ℚ := 15

/-- Outcome of the single outbound `httpx` POST: an HTTP response with status
and text, or a raised transport exception (timeouts included) with its
message. -/
inductive GatewayResult where
  | response (status : Nat) (text : String)
  | transportError (msg : String)
deriving DecidableEq

/-- Response of `POST /feedback`: `ok` is `200 {"ok": true}`, `error s d` is
a raised `HTTPException(status_code=s, detail=d)`, and `validationError` is
the 422 FastAPI produces when the body violates the pydantic constraints. -/
inductive ApiResult where
  | ok
  | error (status : Nat) (detail : String)
  | validationError
deriving DecidableEq

/-- The `feedback` handler (together with the framework's body validation):
from the configuration, the `_ip_hits` state, the request, the current time
`t` (seconds), the formatted timestamp `ts` and the gateway outcome, produce
the response, the final `_ip_hits` state, and the list of outbound send
attempts. -/
def processFeedback (cfg : Config) (st : RateState) (req : Request) (t : ℚ)
    (ts : String) (gw : GatewayResult) :
    ApiResult × RateState × List ResendRequest :=
  if !(payloadValid req.body) then (.validationError, st, [])
  else
    let p := req.body
    if cfg.sharedSecret ≠ "" ∧ pyStripS (req.apiKey.getD "") ≠ cfg.sharedSecret then
      (.error 401 "Unauthorized", st, [])
    else if pyStripS (p.honey.getD "") ≠ "" then
      (.ok, st, [])
    else
      let ip := ipOf req
      let rl := rateLimit cfg.rateLimitPerMin st ip t
      if rl.1 = false then (.error 429 "Too many requests", rl.2, [])
      else
        let st' := rl.2
        let msg := clean p.message 4000
        if msg.length < 4 then (.error 400 "Message too short", st', [])
        else
          let userEmail := clean (p.email.getD "") 120
          if userEmail ≠ "" ∧ validEmail userEmail = false then
            (.error 400 "Invalid email", st', [])
          else
            let name := clean (p.name.getD "") 60
            if cfg.resendApiKey = "" then
              (.error 500 "RESEND_API_KEY is not set", st', [])
            else
              let rq := composeResend cfg p ip ts msg userEmail name
              match gw with
              | .response code txt =>
                if 400 ≤ code then
                  (.error 502 ("Resend error: " ++ toString code ++ " " ++ txt), st', [rq])
                else (.ok, st', [rq])
              | .transportError m =>
                (.error 502 ("Send failed: " ++ m), st', [rq])

/-- All admission checks of the pipeline, in the handler's order: body model
validation, shared-secret check, empty honeypot, rate-limit acceptance,
message length after sanitization, email shape, provider key presence. -/
def checksPassed (cfg : Config) (st : RateState) (req : Request) (t : ℚ) : Bool :=
  payloadValid req.body &&
    (cfg.sharedSecret = "" || pyStripS (req.apiKey.getD "") = cfg.sharedSecret) &&
    (pyStripS (req.body.honey.getD "") = "") &&
    (rateLimit cfg.rateLimitPerMin st (ipOf req) t).1 &&
    (4 ≤ (clean req.body.message 4000).length) &&
    (clean (req.body.email.getD "") 120 = "" || validEmail (clean (req.body.email.getD "") 120)) &&
    !(cfg.resendApiKey = "")

/-! Helper lemmas about the sanitizer. -/

theorem stripRight_cons (c : Char) (rest : List Char) :
    stripRight (c :: rest) =
      if stripRight rest = [] ∧ isPySpace c then [] else c :: stripRight rest := by
  rfl

theorem stripRight_length_le (l : List Char) : (stripRight l).length ≤ l.length := by
  induction l with
  | nil => simp [stripRight]
  | cons c rest ih =>
    rw [stripRight_cons]
    split
    · simp
    · simpa using ih

theorem mem_stripRight {x : Char} {l : List Char} (h : x ∈ stripRight l) : x ∈ l := by
  induction l with
  | nil => simp [stripRight] at h
  | cons c rest ih =>
    rw [stripRight_cons] at h
    split at h
    · simp at h
    · rcases List.mem_cons.mp h with h1 | h2
      · exact h1 ▸ List.mem_cons_self c rest
      · exact List.mem_cons_of_mem c (ih h2)

theorem mem_collapseSTGo {x : Char} :
    ∀ (n : Nat) (l : List Char), x ∈ collapseSTGo n l → x = ' ' ∨ x ∈ l := by
  intro n l
  induction n, l using collapseSTGo.induct with
  | case1 => simp [collapseSTGo]
  | case2 =>
    intro h
    exact Or.inr (by simpa [collapseSTGo] using h)
  | case3 =>
    intro h
    exact Or.inr (by simpa [collapseSTGo] using h)
  | case4 fuel c d rest hcd ih =>
    intro h
    simp only [collapseSTGo, hcd, if_pos] at h
    rcases List.mem_cons.mp h with h1 | h2
    · exact Or.inl h1
    · rcases ih h2 with h3 | h4
      · exact Or.inl h3
      · exact Or.inr (List.mem_cons_of_mem _ (List.mem_cons_of_mem _
          ((List.dropWhile_sublist isST).subset h4)))
  | case5 fuel c d rest hcd ih =>
    intro h
    simp only [collapseSTGo, hcd, if_neg] at h
    rcases List.mem_cons.mp h with h1 | h2
    · exact Or.inr (h1 ▸ List.mem_cons_self _ _)
    · rcases ih h2 with h3 | h4
      · exact Or.inl h3
      · exact Or.inr (List.mem_cons_of_mem _ h4)

theorem crOnly_of_cons {c : Char} {l : List Char}
    (h : crOnlyInCRLF (c :: l) = true) : crOnlyInCRLF l = true := by
  cases l with
  | nil => rfl
  | cons d rest =>
    by_cases hc : c = '\r'
    · subst hc
      have h' : d = '\n' ∧ crOnlyInCRLF rest = true := by
        simpa [crOnlyInCRLF] using h
      obtain ⟨hd, hrest⟩ := h'
      subst hd
      cases rest with
      | nil => decide
      | cons e r2 => simpa [crOnlyInCRLF] using hrest
    · simpa [crOnlyInCRLF, hc] using h

theorem crOnly_cons_of_ne {c : Char} {l : List Char} (hc : ¬c = '\r') :
    crOnlyInCRLF (c :: l) = crOnlyInCRLF l := by
  cases l with
  | nil => simp [crOnlyInCRLF, hc]
  | cons d rest => simp [crOnlyInCRLF, hc]

theorem crOnly_dropWhile {l : List Char} (h : crOnlyInCRLF l = true) :
    crOnlyInCRLF (l.dropWhile isPySpace) = true := by
  induction l with
  | nil => simpa using h
  | cons c rest ih =>
    rw [List.dropWhile_cons]
    split
    · exact ih (crOnly_of_cons h)
    · exact h

theorem crOnly_stripRight {l : List Char} (h : crOnlyInCRLF l = true) :
    crOnlyInCRLF (stripRight l) = true := by
  induction l with
  | nil => exact h
  | cons c rest ih =>
    have ihr := ih (crOnly_of_cons h)
    rw [stripRight_cons]
    split
    · rfl
    · rename_i hbr
      by_cases hc : c = '\r'
      · subst hc
        cases rest with
        | nil => exact absurd h (by decide)
        | cons d r2 =>
          have hd : d = '\n' := by
            by_contra hd
            simp [crOnlyInCRLF, hd] at h
          subst hd
          have hr : ¬stripRight ('\n' :: r2) = [] := by
            intro hx
            exact hbr ⟨hx, by decide⟩
          have hform : stripRight ('\n' :: r2) = '\n' :: stripRight r2 := by
            rw [stripRight_cons]
            rw [if_neg]
            intro hx
            exact hr (by rw [stripRight_cons, if_pos hx])
          rw [hform]
          rw [hform] at ihr
          have heq : crOnlyInCRLF ('\r' :: '\n' :: stripRight r2)
              = crOnlyInCRLF (stripRight r2) := by
            simp [crOnlyInCRLF]
          rw [heq]
          rwa [crOnly_cons_of_ne (by decide)] at ihr
      · rw [crOnly_cons_of_ne hc]
        exact ihr

theorem crOnly_replaceCRLF : ∀ (l : List Char), crOnlyInCRLF l = true →
    '\r' ∉ replaceCRLF l := by
  intro l
  induction l using replaceCRLF.induct with
  | case1 =>
    intro _ hmem
    simp [replaceCRLF] at hmem
  | case2 c =>
    intro h hmem
    simp only [replaceCRLF, List.mem_singleton] at hmem
    subst hmem
    exact absurd h (by simp [crOnlyInCRLF])
  | case3 c d rest hcd ih =>
    intro h hmem
    simp only [Bool.and_eq_true, decide_eq_true_eq] at hcd
    obtain ⟨hc, hd⟩ := hcd
    subst hc; subst hd
    have hrest : crOnlyInCRLF rest = true := by simpa [crOnlyInCRLF] using h
    have hform : replaceCRLF ('\r' :: '\n' :: rest) = '\n' :: replaceCRLF rest := by
      simp [replaceCRLF]
    rw [hform] at hmem
    rcases List.mem_cons.mp hmem with h1 | h2
    · exact absurd h1 (by decide)
    · exact ih hrest h2
  | case4 c d rest hcd ih =>
    intro h hmem
    have hform : replaceCRLF (c :: d :: rest) = c :: replaceCRLF (d :: rest) := by
      simp only [replaceCRLF, if_neg hcd]
    rw [hform] at hmem
    by_cases hc : c = '\r'
    · subst hc
      have hd : ¬d = '\n' := by
        intro hd
        subst hd
        exact hcd (by simp)
      simp [crOnlyInCRLF, hd] at h
    · rcases List.mem_cons.mp hmem with h1 | h2
      · exact hc h1.symm
      · rw [crOnly_cons_of_ne hc] at h
        exact ih h h2

theorem cr_not_mem_cleanL {l : List Char} {n : Nat} (h : crOnlyInCRLF l = true) :
    '\r' ∉ cleanL l n := by
  have hps : crOnlyInCRLF (pyStrip l) = true :=
    crOnly_stripRight (crOnly_dropWhile h)
  have hrep : '\r' ∉ replaceCRLF (pyStrip l) := crOnly_replaceCRLF _ hps
  have hcol : '\r' ∉ collapseST (replaceCRLF (pyStrip l)) := by
    intro hmem
    rcases mem_collapseSTGo _ _ hmem with h1 | h2
    · simp at h1
    · exact hrep h2
  simp only [cleanL]
  split
  · intro hmem
    rcases List.mem_append.mp hmem with h1 | h2
    · exact hcol ((List.take_subset _ _) (mem_stripRight h1))
    · simp at h2
  · exact hcol

theorem cleanL_length_le (l : List Char) (n : Nat) : (cleanL l n).length ≤ n + 1 := by
  simp only [cleanL]
  split
  · rename_i hlt
    have h1 := stripRight_length_le ((collapseST (replaceCRLF (pyStrip l))).take n)
    have h2 := List.length_take_le n (collapseST (replaceCRLF (pyStrip l)))
    simp only [List.length_append, List.length_singleton]
    omega
  · rename_i hle
    omega

/-! Rate-limiter invariant lemmas. -/

theorem rateLimit_state_bound {L : Int} (hL : 0 < L) {st : RateState}
    (hst : ∀ j, (st j).length ≤ L.toNat) (ip : String) (t : ℚ) (j : String) :
    (((rateLimit L st ip t).2) j).length ≤ L.toNat := by
  simp only [rateLimit]
  rw [if_neg (by omega)]
  split
  · exact hst j
  · rename_i hlt
    show (if j = ip then (st ip).filter (fun x => t - x ≤ 60) ++ [t] else st j).length
        ≤ L.toNat
    by_cases hj : j = ip
    · rw [if_pos hj]
      simp only [List.length_append, List.length_singleton]
      omega
    · rw [if_neg hj]
      exact hst j

theorem runRateStates_bound {L : Int} (hL : 0 < L) :
    ∀ (calls : List (String × ℚ)) (st : RateState),
      (∀ j, (st j).length ≤ L.toNat) →
      ∀ j, ((runRateStates L st calls) j).length ≤ L.toNat := by
  intro calls
  induction calls with
  | nil =>
    intro st hst j
    exact hst j
  | cons c cs ih =>
    intro st hst j
    exact ih _ (fun j2 => rateLimit_state_bound hL hst c.1 c.2 j2) j

/-! Claim theorems. -/

/-- C4, counterexample: the claim says the output of `clean` contains no
interior carriage-return character, but a lone `'\r'` (one not part of a
Windows `"\r\n"` break) survives sanitization in the interior of the
output. -/
theorem C4_clean_cex :
    clean "a\rb" 10 = "a\rb" ∧
      '\r' ∈ ((clean "a\rb" 10).toList.drop 1).dropLast := by
  decide

/-- C4, amended: for every input string `s` and bound `n`, `clean s n` has
length at most `n + 1`, and whenever every carriage return of the input is
part of a Windows `"\r\n"` line break (the normalization the spec
describes), the output contains no carriage return at all. -/
theorem C4_clean_amended : ∀ (s : String) (n : Nat),
    (clean s n).length ≤ n + 1 ∧
      (crOnlyInCRLF s.toList = true → '\r' ∉ (clean s n).toList) := by
  intro s n
  constructor
  · show (String.mk (cleanL s.toList n)).length ≤ n + 1
    rw [String.length_mk]
    exact cleanL_length_le s.toList n
  · intro h
    exact cr_not_mem_cleanL h

/-- C4, witness: the amended theorem evaluated on a concrete Windows-style
input. -/
theorem C4_clean_witness :
    (clean "ab\r\ncd" 100).length ≤ 100 + 1 ∧ '\r' ∉ (clean "ab\r\ncd" 100).toList :=
  ⟨(C4_clean_amended "ab\r\ncd" 100).1,
    (C4_clean_amended "ab\r\ncd" 100).2 (by decide)⟩

/-- C2, confirmed: the rate limiter accepts unconditionally without touching
state when the configured limit is non-positive; otherwise it prunes the
IP's timestamps older than 60 seconds, rejects without recording when the
remaining count reaches the limit, and records the current timestamp and
accepts otherwise; and with limit 2, three calls within one second from one
IP yield accept, accept, reject, while a fourth call 61 seconds after the
first yields accept. -/
theorem C2_rate_limit_behavior :
    (∀ (L : Int) (st : RateState) (ip : String) (t : ℚ), L ≤ 0 →
        rateLimit L st ip t = (true, st)) ∧
    (∀ (L : Int) (st : RateState) (ip : String) (t : ℚ), 0 < L →
        (L ≤ (((st ip).filter (fun x => t - x ≤ 60)).length : Int) →
          rateLimit L st ip t = (false, st)) ∧
        ((((st ip).filter (fun x => t - x ≤ 60)).length : Int) < L →
          rateLimit L st ip t =
            (true, fun j => if j = ip
              then (st ip).filter (fun x => t - x ≤ 60) ++ [t] else st j))) ∧
    (runRate 2 [("ip", 0), ("ip", 1/2), ("ip", 1), ("ip", 61)]).1
      = [true, true, false, true] := by
  refine ⟨?_, ?_, ?_⟩
  · intro L st ip t hL
    simp [rateLimit, hL]
  · intro L st ip t hL
    constructor
    · intro hge
      simp only [rateLimit]
      rw [if_neg (by omega), if_pos hge]
    · intro hlt
      simp only [rateLimit]
      rw [if_neg (by omega), if_neg (by omega)]
  · norm_num [runRate, rateLimit, emptyRate]

/-- C2, witness: the disabled-limiter clause of the theorem at a concrete
input. -/
theorem C2_rate_limit_witness :
    rateLimit 0 emptyRate "203.0.113.7" 5 = (true, emptyRate) :=
  C2_rate_limit_behavior.1 0 emptyRate "203.0.113.7" 5 (by decide)

/-- C10, confirmed: with a positive configured limit, after any sequence of
rate-limiter calls starting from the empty state every IP's stored
timestamp list has length at most the limit; and a rejected call returns
the whole `_ip_hits` state unchanged (the pruned bucket is not written
back). -/
theorem C10_rate_state_invariant :
    (∀ (L : Int) (calls : List (String × ℚ)) (ip : String), 0 < L →
        ((runRateStates L emptyRate calls) ip).length ≤ L.toNat) ∧
    (∀ (L : Int) (st : RateState) (ip : String) (t : ℚ),
        (rateLimit L st ip t).1 = false → (rateLimit L st ip t).2 = st) := by
  constructor
  · intro L calls ip hL
    exact runRateStates_bound hL calls emptyRate (fun j => by simp [emptyRate]) ip
  · intro L st ip t h
    by_cases h0 : L ≤ 0
    · simp only [rateLimit, if_pos h0]
    · by_cases h1 : L ≤ ((((st ip).filter (fun x => t - x ≤ 60)).length : Int))
      · simp only [rateLimit, if_neg h0, if_pos h1]
      · exfalso
        simp only [rateLimit, if_neg h0, if_neg h1] at h
        simp at h

/-- C10, witness: the invariant clause of the theorem at a concrete call
sequence. -/
theorem C10_rate_state_witness :
    ((runRateStates 2 emptyRate [("198.51.100.9", 0), ("198.51.100.9", 1)])
        "198.51.100.9").length ≤ (2 : Int).toNat :=
  C10_rate_state_invariant.1 2 [("198.51.100.9", 0), ("198.51.100.9", 1)]
    "198.51.100.9" (by decide)

/-- Helper: the handler's 401 condition fails when no secret is configured or
the trimmed header matches it. -/
theorem not_secret_fail {cfg : Config} {req : Request}
    (hsec : cfg.sharedSecret = "" ∨ pyStripS (req.apiKey.getD "") = cfg.sharedSecret) :
    ¬(cfg.sharedSecret ≠ "" ∧ pyStripS (req.apiKey.getD "") ≠ cfg.sharedSecret) := by
  rcases hsec with h | h
  · exact fun hx => hx.1 h
  · exact fun hx => hx.2 h

/-- Helper: the client IP does not depend on the `X-Api-Key` header. -/
theorem ipOf_setKey (req : Request) (k : Option String) :
    ipOf { req with apiKey := k } = ipOf req := rfl

/-- C1, counterexample: a request whose honeypot field is non-empty does not
always get the success response: with a configured shared secret and a
missing key header the handler answers 401, and with a body violating the
model constraints the framework answers 422. -/
theorem C1_honeypot_cex :
    pyStripS ((some "x" : Option String).getD "") ≠ "" ∧
      (processFeedback { resendApiKey := "rk", sharedSecret := "s" } emptyRate
          { body := { message := "Hello there", honey := some "x" } } 0 "ts"
          (.response 200 "")).1 = ApiResult.error 401 "Unauthorized" ∧
      (processFeedback { resendApiKey := "rk" } emptyRate
          { body := { message := "Hi", honey := some "x" } } 0 "ts"
          (.response 200 "")).1 = ApiResult.validationError := by
  refine ⟨by decide, by decide, by decide⟩

/-- C1, amended: for every request whose body passes model validation and
which passes the shared-secret check, a honeypot field that is non-empty
after trimming makes the handler return the success response with the
rate-limit state untouched and no outbound send attempt, regardless of the
validity of message and email. -/
theorem C1_honeypot_amended : ∀ (cfg : Config) (st : RateState) (req : Request)
    (t : ℚ) (ts : String) (gw : GatewayResult),
    payloadValid req.body = true →
    (cfg.sharedSecret = "" ∨ pyStripS (req.apiKey.getD "") = cfg.sharedSecret) →
    pyStripS (req.body.honey.getD "") ≠ "" →
    processFeedback cfg st req t ts gw = (.ok, st, []) := by
  intro cfg st req t ts gw hval hsec hhoney
  simp [processFeedback, hval, not_secret_fail hsec, hhoney]

/-- C1, witness: the amended theorem on a concrete spam submission with an
invalid email field. -/
theorem C1_honeypot_witness :
    processFeedback { resendApiKey := "rk" } emptyRate
        { body := { message := "Hello there", email := some "not-an-email",
                    honey := some "spam" } } 0 "ts" (.response 200 "")
      = (ApiResult.ok, emptyRate, []) :=
  C1_honeypot_amended _ _ _ _ _ _ (by decide) (Or.inl rfl) (by decide)

/-- C8, counterexample: with a configured secret and a mismatching header,
a request whose body violates the model constraints is answered with the 422
validation error, not with 401. -/
theorem C8_secret_cex :
    ("s" : String) ≠ "" ∧ pyStripS ((some "wrong" : Option String).getD "") ≠ "s" ∧
      (processFeedback { resendApiKey := "rk", sharedSecret := "s" } emptyRate
          { apiKey := some "wrong", body := { message := "Hi" } } 0 "ts"
          (.response 200 "")).1 ≠ ApiResult.error 401 "Unauthorized" := by
  refine ⟨by decide, by decide, by decide⟩

/-- C8, amended: among requests whose body passes model validation, a
configured secret with a mismatching trimmed header yields 401 with no
rate-limit update and no send; and when no secret is configured the header
is ignored entirely — any value, including none, yields the identical
outcome. -/
theorem C8_secret_amended : ∀ (cfg : Config) (st : RateState) (req : Request)
    (t : ℚ) (ts : String) (gw : GatewayResult),
    (payloadValid req.body = true → cfg.sharedSecret ≠ "" →
        pyStripS (req.apiKey.getD "") ≠ cfg.sharedSecret →
        processFeedback cfg st req t ts gw = (.error 401 "Unauthorized", st, [])) ∧
    (cfg.sharedSecret = "" → ∀ k : Option String,
        processFeedback cfg st { req with apiKey := k } t ts gw
          = processFeedback cfg st req t ts gw) := by
  intro cfg st req t ts gw
  constructor
  · intro hval hs hk
    simp [processFeedback, hval, hs, hk]
  · intro hs k
    simp [processFeedback, hs, ipOf_setKey]

/-- C8, witness: the 401 clause of the amended theorem at a concrete
request. -/
theorem C8_secret_witness :
    processFeedback { resendApiKey := "rk", sharedSecret := "s" } emptyRate
        { apiKey := some "nope", body := { message := "Hello there" } } 0 "ts"
        (.response 200 "")
      = (ApiResult.error 401 "Unauthorized", emptyRate, []) :=
  (C8_secret_amended _ _ _ _ _ _).1 (by decide) (by decide) (by decide)

/-- C6, counterexample: a submission with the two-character message "Hi" is
rejected by the body-model validation (min_length 4) with a 422 before the
handler runs, not with 400 and a "message too short" detail. -/
theorem C6_short_message_cex :
    (processFeedback { resendApiKey := "rk" } emptyRate
        { body := { message := "Hi" } } 0 "ts" (.response 200 "")).1
        = ApiResult.validationError ∧
      (processFeedback { resendApiKey := "rk" } emptyRate
          { body := { message := "Hi" } } 0 "ts" (.response 200 "")).1
        ≠ ApiResult.error 400 "message too short" ∧
      (processFeedback { resendApiKey := "rk" } emptyRate
          { body := { message := "Hi" } } 0 "ts" (.response 200 "")).1
        ≠ ApiResult.error 400 "Message too short" := by
  refine ⟨by decide, by decide, by decide⟩

/-- C6, amended: a raw message shorter than 4 characters is rejected by the
body-model validation with 422; for every request that passes model
validation and the earlier checks, a message shorter than 4 characters
after sanitization fails with 400 and detail "Message too short", with no
outbound send. -/
theorem C6_short_message_amended : ∀ (cfg : Config) (st : RateState) (req : Request)
    (t : ℚ) (ts : String) (gw : GatewayResult),
    payloadValid req.body = true →
    (cfg.sharedSecret = "" ∨ pyStripS (req.apiKey.getD "") = cfg.sharedSecret) →
    pyStripS (req.body.honey.getD "") = "" →
    (rateLimit cfg.rateLimitPerMin st (ipOf req) t).1 = true →
    (clean req.body.message 4000).length < 4 →
    processFeedback cfg st req t ts gw
      = (.error 400 "Message too short",
          (rateLimit cfg.rateLimitPerMin st (ipOf req) t).2, []) := by
  intro cfg st req t ts gw hval hsec hhoney hrl hlen
  simp [processFeedback, hval, not_secret_fail hsec, hhoney, hrl, hlen]

/-- C6, witness: the amended theorem on a message of raw length 5 that
sanitizes to 3 characters. -/
theorem C6_short_message_witness :
    processFeedback { resendApiKey := "rk" } emptyRate
        { body := { message := "a   b" } } 0 "ts" (.response 200 "")
      = (ApiResult.error 400 "Message too short",
          (rateLimit 20 emptyRate "unknown" 0).2, []) :=
  C6_short_message_amended _ _ _ _ _ _ (by decide) (Or.inl rfl) (by decide)
    (by decide) (by decide)

/-- Helper: assembling the admission-check conjunction. -/
theorem checksPassed_intro {cfg : Config} {st : RateState} {req : Request} {t : ℚ}
    (h1 : payloadValid req.body = true)
    (hA : cfg.sharedSecret = "" ∨ pyStripS (req.apiKey.getD "") = cfg.sharedSecret)
    (hB : pyStripS (req.body.honey.getD "") = "")
    (hC : (rateLimit cfg.rateLimitPerMin st (ipOf req) t).1 = true)
    (hD : 4 ≤ (clean req.body.message 4000).length)
    (hE : clean (req.body.email.getD "") 120 = ""
        ∨ validEmail (clean (req.body.email.getD "") 120) = true)
    (hF : ¬cfg.resendApiKey = "") :
    checksPassed cfg st req t = true := by
  rcases hA with hA | hA <;> rcases hE with hE | hE <;>
    simp [checksPassed, h1, hA, hB, hC, hD, hE, hF]

/-- Helper: unpacking the admission-check conjunction into the handler's
branch conditions. -/
theorem checksPassed_elim {cfg : Config} {st : RateState} {req : Request} {t : ℚ}
    (h : checksPassed cfg st req t = true) :
    payloadValid req.body = true ∧
    ¬(cfg.sharedSecret ≠ "" ∧ pyStripS (req.apiKey.getD "") ≠ cfg.sharedSecret) ∧
    pyStripS (req.body.honey.getD "") = "" ∧
    (rateLimit cfg.rateLimitPerMin st (ipOf req) t).1 = true ∧
    ¬((clean req.body.message 4000).length < 4) ∧
    ¬(clean (req.body.email.getD "") 120 ≠ ""
        ∧ validEmail (clean (req.body.email.getD "") 120) = false) ∧
    ¬cfg.resendApiKey = "" := by
  simp only [checksPassed, Bool.and_eq_true, Bool.or_eq_true, decide_eq_true_eq,
    Bool.not_eq_true'] at h
  obtain ⟨⟨⟨⟨⟨⟨h1, hA⟩, hB⟩, hC⟩, hD⟩, hE⟩, hF⟩ := h
  refine ⟨h1, ?_, hB, hC, ?_, ?_, ?_⟩
  · tauto
  · omega
  · rcases hE with hE | hE
    · tauto
    · intro hx
      rw [hx.2] at hE
      exact absurd hE (by decide)
  · simpa using hF

/-- Helper: the first element surviving `dropWhile` falsifies the predicate. -/
theorem dropWhile_head_false {p : Char → Bool} : ∀ {l : List Char} {c : Char}
    {r : List Char}, l.dropWhile p = c :: r → p c = false := by
  intro l
  induction l with
  | nil =>
    intro c r h
    simp at h
  | cons a as ih =>
    intro c r h
    rw [List.dropWhile_cons] at h
    split at h
    · exact ih h
    · rename_i hpa
      injection h with h1 h2
      subst h1
      simpa using hpa

/-- Helper: the handler either performs no outbound send, or it performs
exactly the composed one and every admission check passed. -/
theorem processFeedback_sends_eq : ∀ (cfg : Config) (st : RateState) (req : Request)
    (t : ℚ) (ts : String) (gw : GatewayResult),
    (processFeedback cfg st req t ts gw).2.2 = [] ∨
    ((processFeedback cfg st req t ts gw).2.2
        = [composeResend cfg req.body (ipOf req) ts (clean req.body.message 4000)
            (clean (req.body.email.getD "") 120) (clean (req.body.name.getD "") 60)] ∧
      checksPassed cfg st req t = true) := by
  intro cfg st req t ts gw
  cases h1 : payloadValid req.body with
  | false => left; simp [processFeedback, h1]
  | true =>
  by_cases h2 : cfg.sharedSecret ≠ "" ∧ pyStripS (req.apiKey.getD "") ≠ cfg.sharedSecret
  · left; simp [processFeedback, h1, h2]
  · by_cases h3 : pyStripS (req.body.honey.getD "") ≠ ""
    · left; simp [processFeedback, h1, h2, h3]
    · cases h4 : (rateLimit cfg.rateLimitPerMin st (ipOf req) t).1 with
      | false => left; simp [processFeedback, h1, h2, h3, h4]
      | true =>
      by_cases h5 : (clean req.body.message 4000).length < 4
      · left; simp [processFeedback, h1, h2, h3, h4, h5]
      · by_cases h6 : clean (req.body.email.getD "") 120 ≠ ""
            ∧ validEmail (clean (req.body.email.getD "") 120) = false
        · left; simp [processFeedback, h1, h2, h3, h4, h5, h6]
        · by_cases h7 : cfg.resendApiKey = ""
          · left; simp [processFeedback, h1, h2, h3, h4, h5, h6, h7]
          · right
            have hA : cfg.sharedSecret = ""
                ∨ pyStripS (req.apiKey.getD "") = cfg.sharedSecret := by
              rcases not_and_or.mp h2 with h | h
              · exact Or.inl (not_ne_iff.mp h)
              · exact Or.inr (not_ne_iff.mp h)
            have hcp : checksPassed cfg st req t = true := by
              refine checksPassed_intro h1 hA (not_ne_iff.mp h3) h4
                (Nat.le_of_not_lt h5) ?_ h7
              rcases not_and_or.mp h6 with h | h
              · exact Or.inl (not_ne_iff.mp h)
              · right
                revert h
                cases validEmail (clean (req.body.email.getD "") 120) <;> simp
            refine ⟨?_, hcp⟩
            cases gw with
            | response code txt =>
              by_cases h8 : 400 ≤ code <;>
                simp [processFeedback, h1, h2, h3, h4, h5, h6, h7, h8]
            | transportError m =>
              simp [processFeedback, h1, h2, h3, h4, h5, h6, h7]

/-- Helper: exhaustive characterization of the handler's response/send
pairs: a 422 with no send, a 401/429/400/500 error with no send, the
honeypot silent success with no send, or an accepted submission (success or
502) with exactly one send and all checks passed. -/
theorem processFeedback_cases : ∀ (cfg : Config) (st : RateState) (req : Request)
    (t : ℚ) (ts : String) (gw : GatewayResult) (res : ApiResult) (rs : RateState)
    (sends : List ResendRequest),
    processFeedback cfg st req t ts gw = (res, rs, sends) →
    (res = .validationError ∧ sends = []) ∨
    ((res = .error 401 "Unauthorized" ∨ res = .error 429 "Too many requests" ∨
        res = .error 400 "Message too short" ∨ res = .error 400 "Invalid email" ∨
        res = .error 500 "RESEND_API_KEY is not set") ∧ sends = []) ∨
    (res = .ok ∧ sends = [] ∧ pyStripS (req.body.honey.getD "") ≠ "") ∨
    ((res = .ok ∨ ∃ d, res = .error 502 d) ∧ sends.length = 1 ∧
      checksPassed cfg st req t = true) := by
  intro cfg st req t ts gw res rs sends heq
  cases h1 : payloadValid req.body with
  | false =>
    have hpf : processFeedback cfg st req t ts gw = (.validationError, st, []) := by
      simp [processFeedback, h1]
    rw [hpf, Prod.mk.injEq, Prod.mk.injEq] at heq
    obtain ⟨hres, _, hsends⟩ := heq
    exact Or.inl ⟨hres.symm, hsends.symm⟩
  | true =>
  by_cases h2 : cfg.sharedSecret ≠ "" ∧ pyStripS (req.apiKey.getD "") ≠ cfg.sharedSecret
  · have hpf : processFeedback cfg st req t ts gw = (.error 401 "Unauthorized", st, []) := by
      simp [processFeedback, h1, h2]
    rw [hpf, Prod.mk.injEq, Prod.mk.injEq] at heq
    obtain ⟨hres, _, hsends⟩ := heq
    exact Or.inr (Or.inl ⟨Or.inl hres.symm, hsends.symm⟩)
  · by_cases h3 : pyStripS (req.body.honey.getD "") ≠ ""
    · have hpf : processFeedback cfg st req t ts gw = (.ok, st, []) := by
        simp [processFeedback, h1, h2, h3]
      rw [hpf, Prod.mk.injEq, Prod.mk.injEq] at heq
      obtain ⟨hres, _, hsends⟩ := heq
      exact Or.inr (Or.inr (Or.inl ⟨hres.symm, hsends.symm, h3⟩))
    · cases h4 : (rateLimit cfg.rateLimitPerMin st (ipOf req) t).1 with
      | false =>
        have hpf : processFeedback cfg st req t ts gw
            = (.error 429 "Too many requests",
                (rateLimit cfg.rateLimitPerMin st (ipOf req) t).2, []) := by
          simp [processFeedback, h1, h2, h3, h4]
        rw [hpf, Prod.mk.injEq, Prod.mk.injEq] at heq
        obtain ⟨hres, _, hsends⟩ := heq
        exact Or.inr (Or.inl ⟨Or.inr (Or.inl hres.symm), hsends.symm⟩)
      | true =>
      by_cases h5 : (clean req.body.message 4000).length < 4
      · have hpf : processFeedback cfg st req t ts gw
            = (.error 400 "Message too short",
                (rateLimit cfg.rateLimitPerMin st (ipOf req) t).2, []) := by
          simp [processFeedback, h1, h2, h3, h4, h5]
        rw [hpf, Prod.mk.injEq, Prod.mk.injEq] at heq
        obtain ⟨hres, _, hsends⟩ := heq
        exact Or.inr (Or.inl ⟨Or.inr (Or.inr (Or.inl hres.symm)), hsends.symm⟩)
      · by_cases h6 : clean (req.body.email.getD "") 120 ≠ ""
            ∧ validEmail (clean (req.body.email.getD "") 120) = false
        · have hpf : processFeedback cfg st req t ts gw
              = (.error 400 "Invalid email",
                  (rateLimit cfg.rateLimitPerMin st (ipOf req) t).2, []) := by
            simp [processFeedback, h1, h2, h3, h4, h5, h6]
          rw [hpf, Prod.mk.injEq, Prod.mk.injEq] at heq
          obtain ⟨hres, _, hsends⟩ := heq
          exact Or.inr (Or.inl ⟨Or.inr (Or.inr (Or.inr (Or.inl hres.symm))), hsends.symm⟩)
        · by_cases h7 : cfg.resendApiKey = ""
          · have hpf : processFeedback cfg st req t ts gw
                = (.error 500 "RESEND_API_KEY is not set",
                    (rateLimit cfg.rateLimitPerMin st (ipOf req) t).2, []) := by
              simp [processFeedback, h1, h2, h3, h4, h5, h6, h7]
            rw [hpf, Prod.mk.injEq, Prod.mk.injEq] at heq
            obtain ⟨hres, _, hsends⟩ := heq
            exact Or.inr (Or.inl ⟨Or.inr (Or.inr (Or.inr (Or.inr hres.symm))), hsends.symm⟩)
          · have hA : cfg.sharedSecret = ""
                ∨ pyStripS (req.apiKey.getD "") = cfg.sharedSecret := by
              rcases not_and_or.mp h2 with h | h
              · exact Or.inl (not_ne_iff.mp h)
              · exact Or.inr (not_ne_iff.mp h)
            have hcp : checksPassed cfg st req t = true := by
              refine checksPassed_intro h1 hA (not_ne_iff.mp h3) h4
                (Nat.le_of_not_lt h5) ?_ h7
              rcases not_and_or.mp h6 with h | h
              · exact Or.inl (not_ne_iff.mp h)
              · right
                revert h
                cases validEmail (clean (req.body.email.getD "") 120) <;> simp
            refine Or.inr (Or.inr (Or.inr ?_))
            cases gw with
            | response code txt =>
              by_cases h8 : 400 ≤ code
              · have hpf : processFeedback cfg st req t ts (.response code txt)
                    = (.error 502 ("Resend error: " ++ toString code ++ " " ++ txt),
                        (rateLimit cfg.rateLimitPerMin st (ipOf req) t).2,
                        [composeResend cfg req.body (ipOf req) ts
                          (clean req.body.message 4000)
                          (clean (req.body.email.getD "") 120)
                          (clean (req.body.name.getD "") 60)]) := by
                  simp [processFeedback, h1, h2, h3, h4, h5, h6, h7, h8]
                rw [hpf, Prod.mk.injEq, Prod.mk.injEq] at heq
                obtain ⟨hres, _, hsends⟩ := heq
                exact ⟨Or.inr ⟨_, hres.symm⟩, by rw [← hsends]; simp, hcp⟩
              · have hpf : processFeedback cfg st req t ts (.response code txt)
                    = (.ok, (rateLimit cfg.rateLimitPerMin st (ipOf req) t).2,
                        [composeResend cfg req.body (ipOf req) ts
                          (clean req.body.message 4000)
                          (clean (req.body.email.getD "") 120)
                          (clean (req.body.name.getD "") 60)]) := by
                  simp [processFeedback, h1, h2, h3, h4, h5, h6, h7, h8]
                rw [hpf, Prod.mk.injEq, Prod.mk.injEq] at heq
                obtain ⟨hres, _, hsends⟩ := heq
                exact ⟨Or.inl hres.symm, by rw [← hsends]; simp, hcp⟩
            | transportError m =>
              have hpf : processFeedback cfg st req t ts (.transportError m)
                  = (.error 502 ("Send failed: " ++ m),
                      (rateLimit cfg.rateLimitPerMin st (ipOf req) t).2,
                      [composeResend cfg req.body (ipOf req) ts
                        (clean req.body.message 4000)
                        (clean (req.body.email.getD "") 120)
                        (clean (req.body.name.getD "") 60)]) := by
                simp [processFeedback, h1, h2, h3, h4, h5, h6, h7]
              rw [hpf, Prod.mk.injEq, Prod.mk.injEq] at heq
              obtain ⟨hres, _, hsends⟩ := heq
              exact ⟨Or.inr ⟨_, hres.symm⟩, by rw [← hsends]; simp, hcp⟩

/-- C3, confirmed: the handler never initiates an outbound send unless every
admission check passed; at most one send attempt ever occurs; every
401/429/400/500 error response (and the 422 validation error) comes with
zero send attempts; a 502 comes with exactly the one failed attempt and no
retry; and a non-spam success comes with exactly one attempt. -/
theorem C3_send_discipline : ∀ (cfg : Config) (st : RateState) (req : Request)
    (t : ℚ) (ts : String) (gw : GatewayResult),
    (processFeedback cfg st req t ts gw).2.2.length ≤ 1 ∧
    (∀ s d, (processFeedback cfg st req t ts gw).1 = .error s d →
        (s = 401 ∨ s = 429 ∨ s = 400 ∨ s = 500) →
        (processFeedback cfg st req t ts gw).2.2 = []) ∧
    ((processFeedback cfg st req t ts gw).1 = .validationError →
        (processFeedback cfg st req t ts gw).2.2 = []) ∧
    (∀ s d, (processFeedback cfg st req t ts gw).1 = .error s d → s = 502 →
        (processFeedback cfg st req t ts gw).2.2.length = 1) ∧
    ((processFeedback cfg st req t ts gw).1 = .ok →
        pyStripS (req.body.honey.getD "") = "" →
        (processFeedback cfg st req t ts gw).2.2.length = 1) ∧
    ((processFeedback cfg st req t ts gw).2.2 ≠ [] →
        checksPassed cfg st req t = true) := by
  intro cfg st req t ts gw
  rcases processFeedback_cases cfg st req t ts gw
      (processFeedback cfg st req t ts gw).1
      (processFeedback cfg st req t ts gw).2.1
      (processFeedback cfg st req t ts gw).2.2 rfl with
    ⟨hres, hsends⟩ | ⟨hres, hsends⟩ | ⟨hres, hsends, hhoney⟩ | ⟨hres, hlen, hcp⟩
  · refine ⟨by rw [hsends]; simp, fun _ _ _ _ => hsends, fun _ => hsends, ?_, ?_, ?_⟩
    · intro s d h _
      rw [hres] at h
      simp at h
    · intro hok _
      rw [hres] at hok
      simp at hok
    · intro hne
      exact absurd hsends hne
  · refine ⟨by rw [hsends]; simp, fun _ _ _ _ => hsends, fun _ => hsends, ?_, ?_, ?_⟩
    · intro s d h h502
      rcases hres with h0 | h0 | h0 | h0 | h0 <;>
        · rw [h0] at h
          injection h with hs hd
          omega
    · intro hok _
      rcases hres with h0 | h0 | h0 | h0 | h0 <;>
        · rw [h0] at hok
          simp at hok
    · intro hne
      exact absurd hsends hne
  · refine ⟨by rw [hsends]; simp, fun _ _ _ _ => hsends, fun _ => hsends, ?_, ?_, ?_⟩
    · intro s d h _
      rw [hres] at h
      simp at h
    · intro _ hh
      exact absurd hh hhoney
    · intro hne
      exact absurd hsends hne
  · refine ⟨by omega, ?_, ?_, fun _ _ _ _ => hlen, fun _ _ => hlen, fun _ => hcp⟩
    · intro s d h hdisj
      rcases hres with h0 | ⟨d0, h0⟩
      · rw [h0] at h
        simp at h
      · rw [h0] at h
        injection h with hs hd
        omega
    · intro hv
      rcases hres with h0 | ⟨d0, h0⟩ <;>
        · rw [h0] at hv
          simp at hv

/-- C3, witness: the no-send-on-error clause of the theorem at a concrete
401 request. -/
theorem C3_send_discipline_witness :
    (processFeedback { resendApiKey := "rk", sharedSecret := "s" } emptyRate
        { body := { message := "Hello there" } } 0 "ts" (.response 200 "")).2.2 = [] :=
  (C3_send_discipline { resendApiKey := "rk", sharedSecret := "s" } emptyRate
      { body := { message := "Hello there" } } 0 "ts" (.response 200 "")).2.1
    401 "Unauthorized" (by decide) (Or.inl rfl)

/-- C5, counterexample: the claim says every non-2xx gateway status yields a
502 BadGateway, but the code only checks for statuses at least 400 — a 301
redirect response is treated as success. -/
theorem C5_gateway_cex :
    (processFeedback { resendApiKey := "rk" } emptyRate
        { body := { message := "Hello there" } } 0 "ts" (.response 301 "redirect")).1
      = ApiResult.ok := by
  decide

/-- C5, amended: for every accepted submission, a gateway status of at least
400 yields a 502 with the status and body embedded in the detail, a raised
transport exception (timeouts included) yields a 502 with the message
embedded, in both cases with exactly the single attempted send and no
retry; statuses below 400 (3xx included) are treated as success; and the
outbound call carries a 15 second timeout bound. -/
theorem C5_gateway_amended : ∀ (cfg : Config) (st : RateState) (req : Request)
    (t : ℚ) (ts : String),
    (∀ code txt, checksPassed cfg st req t = true →
        (processFeedback cfg st req t ts (.response code txt)).2.2.length = 1 ∧
        (400 ≤ code →
          (processFeedback cfg st req t ts (.response code txt)).1
            = .error 502 ("Resend error: " ++ toString code ++ " " ++ txt)) ∧
        (code < 400 →
          (processFeedback cfg st req t ts (.response code txt)).1 = .ok)) ∧
    (∀ m, checksPassed cfg st req t = true →
        (processFeedback cfg st req t ts (.transportError m)).2.2.length = 1 ∧
        (processFeedback cfg st req t ts (.transportError m)).1
          = .error 502 ("Send failed: " ++ m)) ∧
    resendTimeoutSeconds = 15 := by
  intro cfg st req t ts
  refine ⟨?_, ?_, rfl⟩
  · intro code txt hcp
    obtain ⟨h1, h2, h3, h4, h5, h6, h7⟩ := checksPassed_elim hcp
    have h3' : pyStripS (req.body.honey.getD "") = "" := h3
    refine ⟨?_, ?_, ?_⟩
    · by_cases h8 : 400 ≤ code <;>
        simp [processFeedback, h1, h2, h3', h4, h5, h6, h7, h8]
    · intro h8
      simp [processFeedback, h1, h2, h3', h4, h5, h6, h7, h8]
    · intro h8
      simp [processFeedback, h1, h2, h3', h4, h5, h6, h7, Nat.not_le.mpr h8]
  · intro m hcp
    obtain ⟨h1, h2, h3, h4, h5, h6, h7⟩ := checksPassed_elim hcp
    constructor <;> simp [processFeedback, h1, h2, h3, h4, h5, h6, h7]

/-- C5, witness: the 502 clause of the amended theorem at a concrete
gateway 500 response. -/
theorem C5_gateway_witness :
    (processFeedback { resendApiKey := "rk" } emptyRate
        { body := { message := "Hello there" } } 0 "ts" (.response 500 "boom")).1
      = ApiResult.error 502 ("Resend error: " ++ toString 500 ++ " " ++ "boom") :=
  ((C5_gateway_amended { resendApiKey := "rk" } emptyRate
      { body := { message := "Hello there" } } 0 "ts").1 500 "boom"
    (by decide)).2.1 (by decide)

/-- C9, confirmed: whenever the handler performs a send, the outbound request
is exactly the one composed from the submission, client IP and timestamp;
its subject is the configured prefix, a separator, the platform (or
"unknown" when the field is empty), a separator, and "v" plus the app
version (or "-" when empty); and its reply-to is set exactly when the
sanitized submitter email is present — which, on this path, is exactly when
it is present and valid. -/
theorem C9_compose_correct : ∀ (cfg : Config) (st : RateState) (req : Request)
    (t : ℚ) (ts : String) (gw : GatewayResult) (rq : ResendRequest),
    (processFeedback cfg st req t ts gw).2.2 = [rq] →
    (rq = composeResend cfg req.body (ipOf req) ts (clean req.body.message 4000)
        (clean (req.body.email.getD "") 120) (clean (req.body.name.getD "") 60) ∧
      rq.subject = cfg.subjectPrefixCfg ++ " · " ++ orDefault req.body.platform "unknown"
          ++ " · v" ++ orDefault req.body.app_version "-" ∧
      rq.reply_to = (if clean (req.body.email.getD "") 120 = "" then none
          else some (clean (req.body.email.getD "") 120)) ∧
      (rq.reply_to ≠ none ↔ (clean (req.body.email.getD "") 120 ≠ "" ∧
          validEmail (clean (req.body.email.getD "") 120) = true))) := by
  intro cfg st req t ts gw rq hsend
  rcases processFeedback_sends_eq cfg st req t ts gw with h0 | ⟨hs, hcp⟩
  · rw [h0] at hsend
    simp at hsend
  · rw [hs] at hsend
    have hrq : rq = composeResend cfg req.body (ipOf req) ts
        (clean req.body.message 4000) (clean (req.body.email.getD "") 120)
        (clean (req.body.name.getD "") 60) := by
      injection hsend with hhead htail
      exact hhead.symm
    obtain ⟨h1, h2, h3, h4, h5, h6, h7⟩ := checksPassed_elim hcp
    subst hrq
    refine ⟨rfl, rfl, rfl, ?_⟩
    by_cases hue : clean (req.body.email.getD "") 120 = ""
    · have hrn : (composeResend cfg req.body (ipOf req) ts
          (clean req.body.message 4000) (clean (req.body.email.getD "") 120)
          (clean (req.body.name.getD "") 60)).reply_to = none := by
        simp [composeResend, hue]
      rw [hrn]
      simp [hue]
    · have hve : validEmail (clean (req.body.email.getD "") 120) = true := by
        rcases not_and_or.mp h6 with h | h
        · exact absurd (not_ne_iff.mp h) hue
        · revert h
          cases validEmail (clean (req.body.email.getD "") 120) <;> simp
      have hrn : (composeResend cfg req.body (ipOf req) ts
          (clean req.body.message 4000) (clean (req.body.email.getD "") 120)
          (clean (req.body.name.getD "") 60)).reply_to
            = some (clean (req.body.email.getD "") 120) := by
        simp [composeResend, hue]
      rw [hrn]
      simp [hue, hve]

set_option maxRecDepth 16384 in
/-- C9, witness: the reply-to clause of the theorem on a concrete submission
carrying a valid email. -/
theorem C9_compose_witness :
    (composeResend { resendApiKey := "rk" }
        ({ message := "Hello there", email := some "u@e.co" } : FeedbackPayload)
        "unknown" "ts" (clean "Hello there" 4000) (clean "u@e.co" 120)
        (clean "" 60)).reply_to ≠ none :=
  (C9_compose_correct { resendApiKey := "rk" } emptyRate
      { body := { message := "Hello there", email := some "u@e.co" } } 0 "ts"
      (.response 200 "") _ (by decide)).2.2.2.mpr ⟨by decide, by decide⟩

/-- C7, counterexample: the validator strips its input before matching, so it
accepts an email string whose local part — the characters before its sole
at-sign — contains whitespace. -/
theorem C7_email_cex :
    validEmail " a@b.c" = true ∧
      ' ' ∈ " a@b.c".toList.takeWhile (fun c => !(c = '@')) := by
  refine ⟨by decide, by decide⟩

/-- C7, amended: every email accepted by the validator has, after trimming,
exactly one at-sign, a non-empty whitespace-free local part, and an
at-sign-free whitespace-free domain containing a dot; and every submission
whose email is non-empty after sanitization but fails the validator is
rejected with 400 and detail "Invalid email", with no send. -/
theorem C7_email_amended :
    (∀ s : String, validEmail s = true →
        (pyStrip s.toList).count '@' = 1 ∧
        (pyStrip s.toList).takeWhile (fun c => !(c = '@')) ≠ [] ∧
        (∀ c ∈ (pyStrip s.toList).takeWhile (fun c => !(c = '@')),
            isPySpace c = false) ∧
        (∀ c ∈ ((pyStrip s.toList).dropWhile (fun c => !(c = '@'))).drop 1,
            isPySpace c = false ∧ ¬(c = '@')) ∧
        '.' ∈ ((pyStrip s.toList).dropWhile (fun c => !(c = '@'))).drop 1) ∧
    (∀ (cfg : Config) (st : RateState) (req : Request) (t : ℚ) (ts : String)
        (gw : GatewayResult),
        payloadValid req.body = true →
        (cfg.sharedSecret = "" ∨ pyStripS (req.apiKey.getD "") = cfg.sharedSecret) →
        pyStripS (req.body.honey.getD "") = "" →
        (rateLimit cfg.rateLimitPerMin st (ipOf req) t).1 = true →
        ¬((clean req.body.message 4000).length < 4) →
        clean (req.body.email.getD "") 120 ≠ "" →
        validEmail (clean (req.body.email.getD "") 120) = false →
        processFeedback cfg st req t ts gw
          = (.error 400 "Invalid email",
              (rateLimit cfg.rateLimitPerMin st (ipOf req) t).2, [])) := by
  constructor
  · intro s hv
    simp only [validEmail, emailShape, Bool.and_eq_true, Bool.not_eq_true',
      decide_eq_true_eq, decide_eq_false_iff_not] at hv
    obtain ⟨hne, ⟨⟨⟨hrest, hloc⟩, hlocall⟩, hdomall⟩, hdot⟩ := hv
    obtain ⟨c0, r0, hr0⟩ : ∃ c0 r0,
        (pyStrip s.toList).dropWhile (fun c => !(c = '@')) = c0 :: r0 := by
      cases hx : (pyStrip s.toList).dropWhile (fun c => !(c = '@'))
      · exact absurd hx hrest
      · exact ⟨_, _, rfl⟩
    have hc0 : c0 = '@' := by
      have hh := dropWhile_head_false hr0
      simpa using hh
    subst hc0
    refine ⟨?_, hloc, ?_, ?_, ?_⟩
    · rw [← List.takeWhile_append_dropWhile (fun c => !(c = '@')) (pyStrip s.toList),
        List.count_append]
      have hcl : ((pyStrip s.toList).takeWhile (fun c => !(c = '@'))).count '@' = 0 := by
        rw [List.count_eq_zero]
        intro hmem
        have hp := List.mem_takeWhile_imp hmem
        simp at hp
      have hr0count : r0.count '@' = 0 := by
        rw [List.count_eq_zero]
        intro hmem
        have hmem' : '@' ∈ ((pyStrip s.toList).dropWhile (fun c => !(c = '@'))).drop 1 := by
          rw [hr0]
          exact hmem
        have hall := List.all_eq_true.mp hdomall _ hmem'
        simp [isEmailChar] at hall
      rw [hr0, List.count_cons, hcl, hr0count]
      simp
    · intro c hmem
      have hall := List.all_eq_true.mp hlocall _ hmem
      simp only [isEmailChar, Bool.and_eq_true, Bool.not_eq_true'] at hall
      exact hall.2
    · intro c hmem
      have hall := List.all_eq_true.mp hdomall _ hmem
      simp only [isEmailChar, Bool.and_eq_true, Bool.not_eq_true',
        decide_eq_false_iff_not] at hall
      exact ⟨hall.2, hall.1⟩
    · have hsub : ((((pyStrip s.toList).dropWhile (fun c => !(c = '@'))).drop 1).drop 1).dropLast
          ⊆ (((pyStrip s.toList).dropWhile (fun c => !(c = '@'))).drop 1) := by
        intro x hx
        exact List.drop_subset _ _ ((List.dropLast_sublist _).subset hx)
      exact hsub hdot
  · intro cfg st req t ts gw h1 hA hB hC h5 hue hve
    simp [processFeedback, h1, not_secret_fail hA, hB, hC, h5, hue, hve]

/-- C7, witness: the exactly-one-at-sign clause of the amended theorem on a
concrete accepted email. -/
theorem C7_email_witness :
    (pyStrip "u@e.co".toList).count '@' = 1 :=
  (C7_email_amended.1 "u@e.co" (by decide)).1

end SparkFeedback
